import Mathlib

/-!
Verification of the marker geometry and pose-estimation pipeline of the
sb-vision repository, as a shallow embedding in Lean 4.

Python floating-point values are modelled as exact rationals (`ℚ`) in the
projective-geometry and distance-model modules, and as exact reals (`ℝ`) in
the calibration-fitting module (whose objective involves Euclidean norms,
hence square roots).  Python exceptions are modelled with `Except`.
External collaborators (the OpenCV PnP solver and the scipy scalar
minimizer) are modelled as explicit function parameters, so theorems
quantify over their behaviour.
-/

namespace SbVision

/-! ## Embedding of `sb_vision/tokens.py` -/

/-- A 3x3 homography matrix, as produced by the AprilTags detector
(`np.reshape(arr, (3, 3))` of the 9-element row-major data). -/
def Homog : Type := Fin 3 → Fin 3 → ℚ

/-- Embeds `_row_mul(m, corner, col)`:
`m[col, 0] * corner[0] + m[col, 1] * corner[1] + m[col, 2]`. -/
def row_mul (m : Homog) (corner : ℚ × ℚ) (col : Fin 3) : ℚ :=
  m col 0 * corner.1 + m col 1 * corner.2 + m col 2

/-- Embeds `_homography_transform(corner, homog)`: the perspective division
`z = row2·(corner, 1)`, returning `(row0·(corner, 1) / z, row1·(corner, 1) / z)`. -/
def homography_transform (corner : ℚ × ℚ) (homog : Homog) : ℚ × ℚ :=
  let z := row_mul homog corner 2
  let x := row_mul homog corner 0 / z
  let y := row_mul homog corner 1 / z
  (x, y)

/-- The fixed canonical corner square used by `_get_pixel_corners`. -/
def canonical_corners : List (ℚ × ℚ) := [(-1, -1), (-1, 1), (1, 1), (1, -1)]

/-- Embeds `_get_pixel_corners(homog)`: applies the homography transform to
each canonical corner in order (the Python accumulation loop is a map). -/
def get_pixel_corners (homog : Homog) : List (ℚ × ℚ) :=
  canonical_corners.map (fun corner => homography_transform corner homog)

/-- Embeds `_get_pixel_centre(homography_matrix)`. -/
def get_pixel_centre (homography_matrix : Homog) : ℚ × ℚ :=
  homography_transform (0, 0) homography_matrix

/-- The identity homography matrix. -/
def idHomog : Homog := fun i j => if i = j then 1 else 0

/-- A distance-model artifact, as unpickled by `_get_distance_model`: a
trained resolution and two scalar regressors, each mapping the 9-element
flattened homography to one coordinate (`predict` on a single sample). -/
structure DistanceModel where
  resolution : ℕ × ℕ
  x_model : List ℚ → ℚ
  z_model : List ℚ → ℚ

/-- Errors raised on the `_get_cartesian` path (both are `ValueError`s in
Python; the spec names the resolution check `ResolutionMismatch`). -/
inductive CartesianError
  | resolutionMismatch
  deriving DecidableEq

/-- Embeds the resolution check of `_get_distance_model(name, image_size)`:
the artifact `calibration` has already been unpickled (file loading by model
name is an external concern); a `calibration.resolution != image_size`
mismatch raises, independent of everything else. -/
def get_distance_model (calibration : DistanceModel) (image_size : ℕ × ℕ) :
    Except CartesianError DistanceModel :=
  if calibration.resolution ≠ image_size then
    Except.error CartesianError.resolutionMismatch
  else
    Except.ok calibration

/-- Embeds `homography_matrix.ravel()`: the 9 entries in row-major order. -/
def ravel (m : Homog) : List ℚ :=
  [m 0 0, m 0 1, m 0 2, m 1 0, m 1 1, m 1 2, m 2 0, m 2 1, m 2 2]

/-- Embeds `np.mean` of a 2-element marker size tuple. -/
def meanSize (marker_size : ℚ × ℚ) : ℚ := (marker_size.1 + marker_size.2) / 2

/-- Embeds `_get_cartesian(homography_matrix, image_size, distance_model,
marker_size)`: looks up the distance model (checking resolution), predicts
`x` and `z` from the flattened homography with `y = 0.0`, then multiplies
the position componentwise by `mean(marker_size) / 0.1`. -/
def get_cartesian (homography_matrix : Homog) (image_size : ℕ × ℕ)
    (distance_model : DistanceModel) (marker_size : ℚ × ℚ) :
    Except CartesianError (ℚ × ℚ × ℚ) := do
  let calibration ← get_distance_model distance_model image_size
  let flattened_homography_matrix := ravel homography_matrix
  let x := calibration.x_model flattened_homography_matrix
  let y : ℚ := 0
  let z := calibration.z_model flattened_homography_matrix
  let effective_marker_size := meanSize marker_size
  let effective_marker_scale := effective_marker_size / (1 / 10)
  return (x * effective_marker_scale, y * effective_marker_scale,
    z * effective_marker_scale)

/-! ## Embedding of `Vision.__init__` (`sb_vision/vision.py`) -/

/-- The three accepted shapes of the `token_sizes` argument of
`Vision.__init__`: a single number, a single (vertical, horizontal) tuple,
or a mapping of token IDs to tuples. -/
inductive TokenSizesInput
  | scalar (s : ℚ)
  | pair (p : ℚ × ℚ)
  | mapping (m : List (ℕ × (ℚ × ℚ)))

/-- Python `AttributeError`, raised when reading an attribute that has
never been assigned. -/
inductive VisionInitError
  | attributeError
  deriving DecidableEq

/-- Embeds the `token_sizes` normalisation in `Vision.__init__`: a number
becomes a `defaultdict` whose default is the `(n, n)` tuple, a tuple
becomes a `defaultdict` whose default is that tuple (both total mappings
from token ID to size), and in the remaining (mapping) branch the source
executes `self.token_sizes = self.token_sizes`, which reads the attribute
`token_sizes` before it has ever been assigned and so raises
`AttributeError`. -/
def vision_init_token_sizes (token_sizes : TokenSizesInput) :
    Except VisionInitError (ℕ → ℚ × ℚ) :=
  match token_sizes with
  | TokenSizesInput.scalar s => Except.ok (fun _ => (s, s))
  | TokenSizesInput.pair p => Except.ok (fun _ => p)
  | TokenSizesInput.mapping _ => Except.error VisionInitError.attributeError

/-! ## Embedding of the calibration XML parsing (`sb_vision/find_3D_coords.py`) -/

/-- A direct child element of a matrix record, carrying its tag and its
(optional) text node; the `dt`, `rows`, `cols` and `data` sub-elements of
an OpenCV matrix record all have this shape. -/
structure ChildElement where
  tag : String
  text : Option String

/-- A matrix-bearing XML record as consumed by `_parse_matrix_xml_element`:
its tag, its optional `type_id` attribute, and its direct children. -/
structure MatrixElement where
  tag : String
  type_id : Option String
  children : List ChildElement

/-- Embeds `root.find(descendant_name)`: the first direct child with the
given tag, if any. -/
def findChild (root : MatrixElement) (descendant_name : String) :
    Option ChildElement :=
  root.children.find? (fun c => c.tag = descendant_name)

/-- The errors raised on the calibration parsing path.  In Python all are
`ValueError`/`Exception`; the spec names them: a missing required
sub-element is `MalformedCalibration` (carrying the parent tag and the
missing descendant name), a non-floating-point data element type is
`UnsupportedDataType` (carrying the element tag), an unrecognized
`type_id` is its own fatal parse error, a non-numeric text is a number
conversion error, and a token count differing from `rows * cols` is a
reshape error. -/
inductive CalibError
  | malformedCalibration (rootTag : String) (descendant_name : String)
  | unsupportedDataType (tag : String)
  | unexpectedTypeId (type_id : Option String)
  | badNumber (text : String)
  | reshapeMismatch
  deriving DecidableEq

/-- Embeds `_find_element(root, descendant_name)`: returns the descendant
or raises (the `MalformedCalibration` condition). -/
def find_element (root : MatrixElement) (descendant_name : String) :
    Except CalibError ChildElement :=
  match findChild root descendant_name with
  | none => Except.error (CalibError.malformedCalibration root.tag descendant_name)
  | some descendant => Except.ok descendant

/-- Embeds the whitespace tokenisation of `_get_values_from_xml_element`:
each text piece is stripped and split on runs of whitespace, which is the
same as splitting on whitespace characters and dropping empty pieces. -/
def splitWhitespace (s : String) : List String :=
  (s.split Char.isWhitespace).filter (fun piece => piece ≠ "")

/-- Embeds Python `int(text)` on the text of a `rows`/`cols` element:
`none` text or an unparsable string raises.  `String.toInt?` models
Python's parsing of optionally signed decimal integer literals. -/
def pyInt (text : Option String) : Except CalibError ℤ :=
  match text with
  | none => Except.error (CalibError.badNumber "None")
  | some s =>
    match s.trim.toInt? with
    | none => Except.error (CalibError.badNumber s)
    | some n => Except.ok n

/-- Embeds Python `float(v)` on one whitespace-free token, for the decimal
literals appearing in calibration files: an optional sign, integer digits,
and an optional fractional part. -/
def pyFloat (s : String) : Except CalibError ℚ :=
  let signAndRest : ℚ × List Char :=
    match s.data with
    | '-' :: rest => (-1, rest)
    | '+' :: rest => (1, rest)
    | rest => (1, rest)
  let sign := signAndRest.1
  let rest := signAndRest.2
  let intDigits := rest.takeWhile (fun c => c ≠ '.')
  let fracPart := rest.dropWhile (fun c => c ≠ '.')
  let fracDigits := match fracPart with
    | '.' :: ds => ds
    | _ => []
  if intDigits.all Char.isDigit ∧ fracDigits.all Char.isDigit ∧
      (intDigits ≠ [] ∨ fracDigits ≠ []) then
    let intVal : ℕ := intDigits.foldl (fun acc c => acc * 10 + (c.toNat - 48)) 0
    let fracVal : ℕ := fracDigits.foldl (fun acc c => acc * 10 + (c.toNat - 48)) 0
    Except.ok (sign * ((intVal : ℚ) + (fracVal : ℚ) / (10 : ℚ) ^ fracDigits.length))
  else
    Except.error (CalibError.badNumber s)

/-- Splits a flat list into `rows` consecutive chunks of length `cols`
(row-major), embedding `np.reshape(values, (rows, cols)).tolist()` once the
length check has passed. -/
def chunkRows (values : List ℚ) (cols : ℕ) : ℕ → List (List ℚ)
  | 0 => []
  | rows + 1 => values.take cols :: chunkRows (values.drop cols) cols rows

/-- Embeds `_parse_matrix_xml_element(element)`: checks the
`opencv-matrix` `type_id`, checks that the declared data element type `dt`
is `d` (doubles), reads `rows` and `cols`, tokenises the `data` payload,
converts each token to a float, and reshapes row-major into
`rows * cols` (a count mismatch is a fatal parse error, as `np.reshape`
raises). -/
def parse_matrix_xml_element (element : MatrixElement) :
    Except CalibError (List (List ℚ)) :=
  if element.type_id ≠ some "opencv-matrix" then
    Except.error (CalibError.unexpectedTypeId element.type_id)
  else
    match find_element element "dt" with
    | Except.error err => Except.error err
    | Except.ok dt =>
      if dt.text ≠ some "d" then
        Except.error (CalibError.unsupportedDataType element.tag)
      else
        match find_element element "rows" with
        | Except.error err => Except.error err
        | Except.ok rowsElt =>
          match pyInt rowsElt.text with
          | Except.error err => Except.error err
          | Except.ok rows =>
            match find_element element "cols" with
            | Except.error err => Except.error err
            | Except.ok colsElt =>
              match pyInt colsElt.text with
              | Except.error err => Except.error err
              | Except.ok cols =>
                match find_element element "data" with
                | Except.error err => Except.error err
                | Except.ok dataElt =>
                  match (splitWhitespace ((dataElt.text).getD "")).mapM pyFloat with
                  | Except.error err => Except.error err
                  | Except.ok floats =>
                    if floats.length = rows.toNat * cols.toNat ∧
                        0 ≤ rows ∧ 0 ≤ cols then
                      Except.ok (chunkRows floats cols.toNat rows.toNat)
                    else
                      Except.error CalibError.reshapeMismatch

/-! ## Embedding of the PnP pose solve

`calculate_transforms` exists twice in the repository: the current version
in `sb_vision/find_3D_coords.py` and a legacy version in
`sb_vision/distance_finding.py`.  Both build the same 3D object points and
call `cv2.solvePnP`; the solver is external (OpenCV), so it is passed as an
explicit function parameter returning the triple
(return value, orientation vector, translation vector). -/

/-- A camera matrix, as a list of rows. -/
def CameraMatrix : Type := List (List ℚ)

/-- Distortion coefficients, as a list of rows. -/
def DistCoeffs : Type := List (List ℚ)

/-- The type of the external `cv2.solvePnP` collaborator: object points and
pixel corners to (success flag, orientation vector, translation vector). -/
def SolvePnP : Type :=
  List (ℚ × ℚ × ℚ) → List (ℚ × ℚ) → CameraMatrix → DistCoeffs →
    Bool × (ℚ × ℚ × ℚ) × (ℚ × ℚ × ℚ)

/-- The 3D object points built by both versions of `calculate_transforms`:
the corners of a centred rectangle of the marker's physical width and
height at zero depth, in the source's order. -/
def object_points_for (marker_size : ℚ × ℚ) : List (ℚ × ℚ × ℚ) :=
  let width_from_centre := marker_size.1 / 2
  let height_from_centre := marker_size.2 / 2
  [(width_from_centre, height_from_centre, 0),
   (width_from_centre, -height_from_centre, 0),
   (-width_from_centre, -height_from_centre, 0),
   (-width_from_centre, height_from_centre, 0)]

/-- Failure of the PnP solve (`ValueError("cv2.solvePnP returned false")`),
named `PoseSolveFailure` by the spec. -/
inductive PoseError
  | poseSolveFailure
  deriving DecidableEq

namespace FindCoords

/-- Embeds `calculate_transforms` of `sb_vision/find_3D_coords.py`: builds
the object points, runs the solver, raises if the solver reports failure,
then returns the translation with its Y component negated (the source
comment: OpenCV returns co-ordinates where a positive Y is downwards)
together with the unmodified orientation vector. -/
def calculate_transforms (solvePnP : SolvePnP) (marker_size : ℚ × ℚ)
    (pixel_corners : List (ℚ × ℚ)) (camera_matrix : CameraMatrix)
    (distance_coefficients : DistCoeffs) :
    Except PoseError ((ℚ × ℚ × ℚ) × (ℚ × ℚ × ℚ)) :=
  let object_points := object_points_for marker_size
  let result :=
    solvePnP object_points pixel_corners camera_matrix distance_coefficients
  let return_value := result.1
  let orientation_vector := result.2.1
  let translation_vector := result.2.2
  if return_value = false then
    Except.error PoseError.poseSolveFailure
  else
    Except.ok
      ((translation_vector.1, -translation_vector.2.1, translation_vector.2.2),
        orientation_vector)

end FindCoords

namespace DistanceFinding

/-- Embeds `calculate_transforms` of `sb_vision/distance_finding.py` (the
legacy module): builds the same object points and runs the solver, but
ignores the solver's return value and returns the raw translation and
orientation vectors with no sign adjustment. -/
def calculate_transforms (solvePnP : SolvePnP) (marker_size : ℚ × ℚ)
    (pixel_corners : List (ℚ × ℚ)) (camera_matrix : CameraMatrix)
    (distance_coefficients : DistCoeffs) :
    (ℚ × ℚ × ℚ) × (ℚ × ℚ × ℚ) :=
  let object_points := object_points_for marker_size
  let result :=
    solvePnP object_points pixel_corners camera_matrix distance_coefficients
  let orientation_vector := result.2.1
  let translation_vector := result.2.2
  (translation_vector, orientation_vector)

end DistanceFinding

/-! ## Embedding of `sb_vision/calibration/fit.py`

The objective involves Euclidean norms (square roots), so this module is
embedded over the reals. -/

/-- A training example as consumed by `fit`: image size in pixels, the
detected homography matrix, and the known physical placement. -/
structure TrainingExample where
  size : ℝ × ℝ
  homography_matrix : Fin 3 → Fin 3 → ℝ
  x_offset_right : ℝ
  z_distance : ℝ

/-- The `Calibration` namedtuple: a single focal length. -/
structure Calibration where
  focal_length : ℝ

/-- Python `ZeroDivisionError`, raised by `total_error / len(training_examples)`
when the list of training examples is empty. -/
inductive FitError
  | zeroDivisionError
  deriving DecidableEq

/-- The calibration matrix built per example for a candidate focal length:
`[[w * f, 0, 0.5 * w], [0, h * f, 0.5 * h], [0, 0, 1]]`. -/
noncomputable def calibration_matrix (focal_length : ℝ) (size : ℝ × ℝ) :
    Fin 3 → Fin 3 → ℝ :=
  ![![size.1 * focal_length, 0, 0.5 * size.1],
    ![0, size.2 * focal_length, 0.5 * size.2],
    ![0, 0, 1]]

/-- The 4 fixed rotation hypotheses `(a, b, c, d)` enumerated by the
source, in its order. -/
noncomputable def rotations : List (ℝ × ℝ × ℝ × ℝ) :=
  [(1, 0, 0, 1), (0, -1, 1, 0), (-1, 0, 0, -1), (0, 1, -1, 0)]

/-- The expected pose matrix for one rotation hypothesis `(a, b, c, d)`:
`[[a, b, 0, x_offset_right], [c, d, 0, 0], [0, 0, 1, z_distance]]`. -/
noncomputable def pose_matrix (rotation : ℝ × ℝ × ℝ × ℝ)
    (x_offset_right z_distance : ℝ) : Fin 3 → Fin 4 → ℝ :=
  ![![rotation.1, rotation.2.1, 0, x_offset_right],
    ![rotation.2.2.1, rotation.2.2.2, 0, 0],
    ![0, 0, 1, z_distance]]

/-- Column `j` of a 3x3 matrix. -/
def colOf (m : Fin 3 → Fin 3 → ℝ) (j : Fin 3) : Fin 3 → ℝ :=
  fun i => m i j

/-- Embeds `numpy.cross` of two 3-vectors. -/
noncomputable def crossCol (u v : Fin 3 → ℝ) : Fin 3 → ℝ :=
  ![u 1 * v 2 - u 2 * v 1, u 2 * v 0 - u 0 * v 2, u 0 * v 1 - u 1 * v 0]

/-- The homography with a reconstructed third column: the transpose of the
row-stacked array `[H[:,0], H[:,1], cross(H[:,0], H[:,1]), H[:,2]]`, i.e. a
3x4 matrix whose columns are the homography's first two columns, their
cross product, and the homography's last column. -/
noncomputable def homography_with_extra_col (h : Fin 3 → Fin 3 → ℝ) :
    Fin 3 → Fin 4 → ℝ :=
  fun i j =>
    ![colOf h 0, colOf h 1, crossCol (colOf h 0) (colOf h 1), colOf h 2] j i

/-- Embeds `scipy.linalg.lstsq(calibration_matrix, B)` specialised to this
upper-triangular calibration matrix: for a nonzero focal length and nonzero
image dimensions the matrix is invertible, and the least-squares solution
is the unique exact solution, obtained here by back-substitution (see
`lstsq_solve_exact` below). -/
noncomputable def lstsq_solve (focal_length w h : ℝ) (b : Fin 3 → Fin 4 → ℝ) :
    Fin 3 → Fin 4 → ℝ :=
  fun i j =>
    match i with
    | 0 => (b 0 j - 0.5 * w * b 2 j) / (w * focal_length)
    | 1 => (b 1 j - 0.5 * h * b 2 j) / (h * focal_length)
    | 2 => b 2 j

/-- Embeds `numpy.linalg.norm` of a 3-vector. -/
noncomputable def norm3 (v : Fin 3 → ℝ) : ℝ :=
  Real.sqrt (v 0 ^ 2 + v 1 ^ 2 + v 2 ^ 2)

/-- Embeds Python `max` over a non-empty list (the source applies it to the
4 accumulated error levels; the empty case never arises there). -/
noncomputable def pyListMax : List ℝ → ℝ
  | [] => 0
  | x :: xs => xs.foldl max x

/-- One iteration of the rotation-hypothesis loop in the source's
`reconstruction_error`: the norm of the fourth column of the difference
between the expected pose matrix and the least-squares-solved pose
matrix. -/
noncomputable def error_level (focal_length : ℝ) (e : TrainingExample)
    (rotation : ℝ × ℝ × ℝ × ℝ) : ℝ :=
  let pose := pose_matrix rotation e.x_offset_right e.z_distance
  let extended := homography_with_extra_col e.homography_matrix
  let solved := lstsq_solve focal_length e.size.1 e.size.2 extended
  let diff : Fin 3 → Fin 4 → ℝ := fun i j => pose i j - solved i j
  norm3 (fun i => diff i 3)

/-- The per-example contribution accumulated into `total_error`: the
maximum of the error levels over the 4 rotation hypotheses. -/
noncomputable def per_example_error (focal_length : ℝ) (e : TrainingExample) : ℝ :=
  pyListMax (rotations.map (fun rotation => error_level focal_length e rotation))

/-- The value of the objective when the division succeeds:
`total_error / len(training_examples)`, with `total_error` accumulated over
the examples. -/
noncomputable def reconstruction_error_val (focal_length : ℝ)
    (training_examples : List TrainingExample) : ℝ :=
  (training_examples.foldl
      (fun acc e => acc + per_example_error focal_length e) 0) /
    training_examples.length

/-- Embeds the source's `reconstruction_error(x)`: accumulates the
per-example errors and divides by the number of examples, raising
`ZeroDivisionError` when there are none. -/
noncomputable def reconstruction_error (focal_length : ℝ)
    (training_examples : List TrainingExample) : Except FitError ℝ :=
  if training_examples.length = 0 then
    Except.error FitError.zeroDivisionError
  else
    Except.ok (reconstruction_error_val focal_length training_examples)

/-- Embeds `fit(training_examples)`.  The derivative-free scalar minimiser
(`scipy.optimize.minimize`, Nelder-Mead) is an external collaborator passed
as a function parameter.  Its first action is to evaluate the objective at
the initial guess `1.0` when building the initial simplex, so an exception
raised by that evaluation (the only exception the objective can raise, and
it is raised on every evaluation or on none) propagates out of `fit`; the
initial `match` models this propagation.  On the non-raising path the
objective is total and is handed to the minimiser; the returned focal
length is the minimiser's solution divided by `0.1`. -/
noncomputable def fit (minimizer : (ℝ → ℝ) → ℝ → ℝ)
    (training_examples : List TrainingExample) : Except FitError Calibration :=
  match reconstruction_error 1 training_examples with
  | Except.error e => Except.error e
  | Except.ok _ =>
    let final_focal_length :=
      minimizer (fun x => reconstruction_error_val x training_examples) 1
    Except.ok { focal_length := final_focal_length / (1 / 10) }

/-! ## Spec-side restatement of the fitter's error metric (claim C3)

These definitions follow the claim's words — expected translation column,
least-squares-solved translation column, Euclidean distance, maximum over
the 4 rotation hypotheses, mean over examples — to be compared with the
operational `reconstruction_error` embedded from the source above. -/

/-- The expected translation column named by the claim: the fourth column
`(x_offset_right, 0, z_distance)` of the expected pose matrix. -/
def claim_expected_translation (e : TrainingExample) : ℝ × ℝ × ℝ :=
  (e.x_offset_right, 0, e.z_distance)

/-- The least-squares-solved translation column named by the claim,
written directly in terms of the homography entries: the solve's right-hand
side has the homography's last column as its own fourth column. -/
noncomputable def claim_solved_translation (focal_length : ℝ)
    (e : TrainingExample) : ℝ × ℝ × ℝ :=
  ((e.homography_matrix 0 2 - 0.5 * e.size.1 * e.homography_matrix 2 2) /
      (e.size.1 * focal_length),
    (e.homography_matrix 1 2 - 0.5 * e.size.2 * e.homography_matrix 2 2) /
      (e.size.2 * focal_length),
    e.homography_matrix 2 2)

/-- Euclidean distance between two 3-vectors as named by the claim. -/
noncomputable def euclidean_distance3 (u v : ℝ × ℝ × ℝ) : ℝ :=
  Real.sqrt ((u.1 - v.1) ^ 2 + (u.2.1 - v.2.1) ^ 2 + (u.2.2 - v.2.2) ^ 2)

/-- The 4 fixed 2x2 sign/swap patterns exactly as the claim lists them. -/
noncomputable def claim_rotation_hypotheses : List (ℝ × ℝ × ℝ × ℝ) :=
  [(1, 0, 0, 1), (0, -1, 1, 0), (-1, 0, 0, -1), (0, 1, -1, 0)]

/-- The per-example error as worded by the claim: the maximum, over the 4
fixed rotation hypotheses, of the Euclidean distance between the expected
translation column and the least-squares-solved translation column. -/
noncomputable def claim_per_example_error (focal_length : ℝ)
    (e : TrainingExample) : ℝ :=
  pyListMax (claim_rotation_hypotheses.map (fun _rotation =>
    euclidean_distance3 (claim_expected_translation e)
      (claim_solved_translation focal_length e)))

/-! ## Concrete artifacts used by witnesses -/

/-- A concrete training example for witness instantiation. -/
noncomputable def example0 : TrainingExample :=
  { size := (1, 1), homography_matrix := fun _ _ => 0,
    x_offset_right := 0, z_distance := 0 }

/-- A concrete distance-model artifact for witness instantiation: trained at
1280x720, with constant regressors. -/
def witnessModel : DistanceModel :=
  { resolution := (1280, 720), x_model := fun _ => 3, z_model := fun _ => 5 }

/-- A concrete PnP solver stub for witness instantiation: always succeeds
with orientation `(3, 4, 5)` and translation `(6, 7, 8)`. -/
def witnessSolver : SolvePnP := fun _ _ _ _ => (true, (3, 4, 5), (6, 7, 8))

/-- A concrete matrix record whose `dt` element declares the
non-floating-point element type `f`. -/
def xmlBadType : MatrixElement :=
  { tag := "cameraMatrix", type_id := some "opencv-matrix",
    children := [{ tag := "dt", text := some "f" }] }

/-- A concrete matrix record with a floating-point `dt` but no `rows`
sub-element. -/
def xmlMissingRows : MatrixElement :=
  { tag := "cameraMatrix", type_id := some "opencv-matrix",
    children := [{ tag := "dt", text := some "d" },
                 { tag := "cols", text := some "3" }] }

/-! ## Helper lemmas -/

/-- When the resolution check passes, `_get_cartesian` returns the two
regressor outputs (and a zero vertical component) scaled componentwise by
`mean(marker_size) / 0.1`. -/
theorem get_cartesian_ok (homography_matrix : Homog) (image_size : ℕ × ℕ)
    (model : DistanceModel) (marker_size : ℚ × ℚ)
    (hres : model.resolution = image_size) :
    get_cartesian homography_matrix image_size model marker_size =
      Except.ok
        (model.x_model (ravel homography_matrix) * (meanSize marker_size / (1 / 10)),
          0,
          model.z_model (ravel homography_matrix) * (meanSize marker_size / (1 / 10))) := by
  unfold get_cartesian get_distance_model
  simp [hres]

/-- When the resolution check fails, `_get_cartesian` propagates the
`ResolutionMismatch` error. -/
theorem get_cartesian_err (homography_matrix : Homog) (image_size : ℕ × ℕ)
    (model : DistanceModel) (marker_size : ℚ × ℚ)
    (hres : model.resolution ≠ image_size) :
    get_cartesian homography_matrix image_size model marker_size =
      Except.error CartesianError.resolutionMismatch := by
  unfold get_cartesian get_distance_model
  simp [hres]

/-- Each iteration of the rotation loop contributes the same value: the
Euclidean distance between the expected translation column and the
least-squares-solved translation column (the rotation hypothesis only
affects the first three columns of the expected pose matrix, which the
error does not read). -/
theorem error_level_eq (focal_length : ℝ) (e : TrainingExample)
    (rotation : ℝ × ℝ × ℝ × ℝ) :
    error_level focal_length e rotation =
      euclidean_distance3 (claim_expected_translation e)
        (claim_solved_translation focal_length e) := by
  unfold error_level euclidean_distance3 claim_expected_translation
    claim_solved_translation norm3
  simp only
  congr 1

/-- The source's accumulated per-example contribution is the claim's
max-over-hypotheses per-example error. -/
theorem per_example_error_eq (focal_length : ℝ) (e : TrainingExample) :
    per_example_error focal_length e =
      claim_per_example_error focal_length e := by
  unfold per_example_error claim_per_example_error rotations
    claim_rotation_hypotheses
  simp [error_level_eq]

/-- The source's `total_error` accumulation is the sum of the per-example
errors. -/
theorem total_error_foldl_eq_sum (f : ℝ) (l : List TrainingExample) (a : ℝ) :
    l.foldl (fun acc e => acc + per_example_error f e) a =
      a + (l.map (claim_per_example_error f)).sum := by
  induction l generalizing a with
  | nil => simp
  | cons x xs ih =>
    simp only [List.foldl_cons, List.map_cons, List.sum_cons]
    rw [ih, per_example_error_eq]
    ring

/-- Faithfulness of the `lstsq_solve` embedding: for a nonzero focal length
and nonzero image dimensions the calibration matrix is invertible and the
back-substituted solution satisfies the system exactly, hence is the unique
least-squares solution returned by `scipy.linalg.lstsq`. -/
theorem lstsq_solve_exact (focal_length w h : ℝ) (b : Fin 3 → Fin 4 → ℝ)
    (hf : focal_length ≠ 0) (hw : w ≠ 0) (hh : h ≠ 0) :
    (fun i j =>
        calibration_matrix focal_length (w, h) i 0 * lstsq_solve focal_length w h b 0 j +
        calibration_matrix focal_length (w, h) i 1 * lstsq_solve focal_length w h b 1 j +
        calibration_matrix focal_length (w, h) i 2 * lstsq_solve focal_length w h b 2 j) =
      b := by
  funext i j
  fin_cases i
  · show w * focal_length * ((b 0 j - 0.5 * w * b 2 j) / (w * focal_length)) +
      0 * ((b 1 j - 0.5 * h * b 2 j) / (h * focal_length)) + 0.5 * w * b 2 j = b 0 j
    field_simp
  · show 0 * ((b 0 j - 0.5 * w * b 2 j) / (w * focal_length)) +
      h * focal_length * ((b 1 j - 0.5 * h * b 2 j) / (h * focal_length)) +
      0.5 * h * b 2 j = b 1 j
    field_simp
  · show 0 * ((b 0 j - 0.5 * w * b 2 j) / (w * focal_length)) +
      0 * ((b 1 j - 0.5 * h * b 2 j) / (h * focal_length)) + 1 * b 2 j = b 2 j
    ring

/-! ## Claim theorems -/

/-- C1 (amended): whenever the PnP solve succeeds, the translation returned
by `find_3D_coords.calculate_transforms` has its Y component sign-inverted
relative to the solver's raw output and its X and Z components unchanged,
while the legacy `distance_finding.calculate_transforms` returns the
solver's raw translation with no sign inversion. -/
theorem claim_C1_pose_y_inversion (solvePnP : SolvePnP)
    (marker_size : ℚ × ℚ) (pixel_corners : List (ℚ × ℚ))
    (camera_matrix : CameraMatrix) (distance_coefficients : DistCoeffs)
    (ret : Bool) (orientation translation : ℚ × ℚ × ℚ)
    (hsolve : solvePnP (object_points_for marker_size) pixel_corners
        camera_matrix distance_coefficients = (ret, orientation, translation))
    (hret : ret = true) :
    FindCoords.calculate_transforms solvePnP marker_size pixel_corners
        camera_matrix distance_coefficients =
      Except.ok ((translation.1, -translation.2.1, translation.2.2),
        orientation) ∧
    DistanceFinding.calculate_transforms solvePnP marker_size pixel_corners
        camera_matrix distance_coefficients = (translation, orientation) := by
  simp [FindCoords.calculate_transforms, DistanceFinding.calculate_transforms,
    hsolve, hret]

/-- Witness for C1: the amended claim instantiated at the concrete witness
solver, marker size `(1/4, 1/4)` and empty corner/calibration inputs. -/
theorem claim_C1_witness :
    (witnessSolver (object_points_for (1/4, 1/4)) [] [] [] =
        (true, (3, 4, 5), (6, 7, 8)) ∧ (true : Bool) = true) ∧
    (FindCoords.calculate_transforms witnessSolver (1/4, 1/4) [] [] [] =
        Except.ok ((6, -7, 8), (3, 4, 5)) ∧
      DistanceFinding.calculate_transforms witnessSolver (1/4, 1/4) [] [] [] =
        ((6, 7, 8), (3, 4, 5))) :=
  ⟨⟨rfl, rfl⟩,
    claim_C1_pose_y_inversion witnessSolver (1/4, 1/4) [] [] []
      true (3, 4, 5) (6, 7, 8) rfl rfl⟩

/-- Counterexample for C1 as stated: the claim says the translation
returned by `calculate_transforms` has its Y component sign-inverted, but
`distance_finding.calculate_transforms`, on a solver raw output with
translation `(0, 1, 2)`, returns the Y component `1` unchanged, and
`1 ≠ -1`. -/
theorem claim_C1_counterexample :
    (DistanceFinding.calculate_transforms
        (fun _ _ _ _ => (true, (0, 0, 0), (0, 1, 2))) (1/4, 1/4) [] [] []).1 =
      ((0 : ℚ), (1 : ℚ), (2 : ℚ)) ∧ (1 : ℚ) ≠ -1 := by
  constructor
  · rfl
  · norm_num

/-- C3: on any non-empty batch, the fitter's objective equals the mean,
over the examples, of the per-example error, where the per-example error
is the maximum over the 4 fixed rotation hypotheses of the Euclidean
distance between the expected translation column and the
least-squares-solved translation column. -/
theorem claim_C3_objective_shape (focal_length : ℝ)
    (training_examples : List TrainingExample)
    (hne : training_examples ≠ []) :
    reconstruction_error focal_length training_examples =
      Except.ok ((training_examples.map
          (claim_per_example_error focal_length)).sum /
        training_examples.length) := by
  unfold reconstruction_error reconstruction_error_val
  rw [if_neg (by simpa using hne), total_error_foldl_eq_sum]
  simp

/-- Witness for C3: the objective shape instantiated on a singleton batch
at focal length 1. -/
theorem claim_C3_witness :
    ([example0] ≠ []) ∧
    reconstruction_error 1 [example0] =
      Except.ok (([example0].map (claim_per_example_error 1)).sum /
        ([example0] : List TrainingExample).length) :=
  ⟨by simp, claim_C3_objective_shape 1 [example0] (by simp)⟩

/-- C4: the distance-model prediction is linear in the mean of the assumed
marker size: if prediction with marker size `s1` succeeds with position
`p`, prediction with `s2` succeeds with `p` scaled componentwise by
`mean(s2) / mean(s1)`; moreover `p` itself is the raw regressor output
`(x, 0, z)` scaled componentwise by `mean(s1) / 0.1`. -/
theorem claim_C4_marker_size_linearity (homog : Homog)
    (image_size : ℕ × ℕ) (model : DistanceModel) (s1 s2 : ℚ × ℚ)
    (p : ℚ × ℚ × ℚ) (hmean : meanSize s1 ≠ 0)
    (hok : get_cartesian homog image_size model s1 = Except.ok p) :
    get_cartesian homog image_size model s2 =
      Except.ok (p.1 * (meanSize s2 / meanSize s1),
        p.2.1 * (meanSize s2 / meanSize s1),
        p.2.2 * (meanSize s2 / meanSize s1)) ∧
    p = (model.x_model (ravel homog) * (meanSize s1 / (1 / 10)), 0,
      model.z_model (ravel homog) * (meanSize s1 / (1 / 10))) := by
  by_cases hres : model.resolution = image_size
  · rw [get_cartesian_ok _ _ _ _ hres] at hok
    have hp := (Except.ok.injEq _ _).mp hok.symm
    subst hp
    refine ⟨?_, rfl⟩
    rw [get_cartesian_ok _ _ _ _ hres]
    congr 1
    refine Prod.ext ?_ (Prod.ext ?_ ?_) <;> simp <;> field_simp <;> ring
  · rw [get_cartesian_err _ _ _ _ hres] at hok
    exact absurd hok (by simp)

/-- Witness for C4: linearity instantiated at the identity homography, the
witness model at its trained resolution, and marker sizes `(0.1, 0.1)` and
`(0.25, 0.25)`. -/
theorem claim_C4_witness :
    (meanSize (1/10, 1/10) ≠ 0 ∧
      get_cartesian idHomog (1280, 720) witnessModel (1/10, 1/10) =
        Except.ok (3, 0, 5)) ∧
    (get_cartesian idHomog (1280, 720) witnessModel (1/4, 1/4) =
        Except.ok (3 * (meanSize (1/4, 1/4) / meanSize (1/10, 1/10)),
          (0 : ℚ) * (meanSize (1/4, 1/4) / meanSize (1/10, 1/10)),
          5 * (meanSize (1/4, 1/4) / meanSize (1/10, 1/10))) ∧
      ((3 : ℚ), (0 : ℚ), (5 : ℚ)) =
        (witnessModel.x_model (ravel idHomog) * (meanSize (1/10, 1/10) / (1 / 10)),
          0,
          witnessModel.z_model (ravel idHomog) * (meanSize (1/10, 1/10) / (1 / 10)))) :=
  have h1 : meanSize ((1:ℚ)/10, (1:ℚ)/10) ≠ 0 := by norm_num [meanSize]
  have h2 : get_cartesian idHomog (1280, 720) witnessModel (1/10, 1/10) =
      Except.ok (3, 0, 5) := by
    rw [get_cartesian_ok idHomog (1280, 720) witnessModel (1/10, 1/10) rfl]
    norm_num [meanSize, witnessModel]
  ⟨⟨h1, h2⟩,
    claim_C4_marker_size_linearity idHomog (1280, 720) witnessModel
      (1/10, 1/10) (1/4, 1/4) (3, 0, 5) h1 h2⟩

/-- C5: predicting with an image size different from the model artifact's
trained resolution fails with `ResolutionMismatch`, for every homography
and marker size. -/
theorem claim_C5_resolution_mismatch (homography_matrix : Homog)
    (image_size : ℕ × ℕ) (model : DistanceModel) (marker_size : ℚ × ℚ)
    (hmismatch : image_size ≠ model.resolution) :
    get_cartesian homography_matrix image_size model marker_size =
      Except.error CartesianError.resolutionMismatch :=
  get_cartesian_err _ _ _ _ (Ne.symm hmismatch)

/-- Witness for C5: the resolution check instantiated at image size
`(640, 480)` against the witness model trained at `(1280, 720)`. -/
theorem claim_C5_witness :
    ((640, 480) : ℕ × ℕ) ≠ witnessModel.resolution ∧
    get_cartesian idHomog (640, 480) witnessModel (1/4, 1/4) =
      Except.error CartesianError.resolutionMismatch :=
  ⟨by simp [witnessModel], claim_C5_resolution_mismatch idHomog (640, 480)
    witnessModel (1/4, 1/4) (by simp [witnessModel])⟩

/-- C6: parsing a matrix record whose `dt` element declares a
non-floating-point element type fails with `UnsupportedDataType` naming the
record's tag, and parsing a record missing the required `rows` sub-element
fails with `MalformedCalibration` naming the missing path; in both cases no
matrix is returned. -/
theorem claim_C6_parse_errors :
    (∀ (e : MatrixElement) (dtElt : ChildElement) (t : String),
      e.type_id = some "opencv-matrix" →
      findChild e "dt" = some dtElt → dtElt.text = some t → t ≠ "d" →
      parse_matrix_xml_element e =
        Except.error (CalibError.unsupportedDataType e.tag)) ∧
    (∀ (e : MatrixElement) (dtElt : ChildElement),
      e.type_id = some "opencv-matrix" →
      findChild e "dt" = some dtElt → dtElt.text = some "d" →
      findChild e "rows" = none →
      parse_matrix_xml_element e =
        Except.error (CalibError.malformedCalibration e.tag "rows")) := by
  constructor
  · intro e dtElt t htype hfind htext hne
    unfold parse_matrix_xml_element find_element
    simp [htype, hfind, htext, hne]
  · intro e dtElt htype hfind htext hrows
    unfold parse_matrix_xml_element find_element
    simp [htype, hfind, htext, hrows]

/-- Witness for C6: both error paths instantiated at concrete records. -/
theorem claim_C6_witness :
    (xmlBadType.type_id = some "opencv-matrix" ∧
      findChild xmlBadType "dt" = some { tag := "dt", text := some "f" } ∧
      ("f" : String) ≠ "d" ∧
      parse_matrix_xml_element xmlBadType =
        Except.error (CalibError.unsupportedDataType "cameraMatrix")) ∧
    (xmlMissingRows.type_id = some "opencv-matrix" ∧
      findChild xmlMissingRows "dt" = some { tag := "dt", text := some "d" } ∧
      findChild xmlMissingRows "rows" = none ∧
      parse_matrix_xml_element xmlMissingRows =
        Except.error (CalibError.malformedCalibration "cameraMatrix" "rows")) :=
  ⟨⟨rfl, rfl, by simp,
      claim_C6_parse_errors.1 xmlBadType { tag := "dt", text := some "f" }
        "f" rfl rfl rfl (by simp)⟩,
    ⟨rfl, rfl, rfl,
      claim_C6_parse_errors.2 xmlMissingRows { tag := "dt", text := some "d" }
        rfl rfl rfl rfl⟩⟩

/-- C7 (code evaluated at the failing input): `Vision.__init__` normalises
a scalar or a pair into a total mapping with a default, but the mapping
branch executes `self.token_sizes = self.token_sizes`, reading the
never-assigned attribute, so construction with a per-identifier mapping
raises `AttributeError` instead of storing the mapping. -/
theorem claim_C7_token_sizes_attribute_error (s : ℚ) (p : ℚ × ℚ)
    (m : List (ℕ × (ℚ × ℚ))) :
    vision_init_token_sizes (TokenSizesInput.scalar s) =
      Except.ok (fun _ => (s, s)) ∧
    vision_init_token_sizes (TokenSizesInput.pair p) =
      Except.ok (fun _ => p) ∧
    vision_init_token_sizes (TokenSizesInput.mapping m) =
      Except.error VisionInitError.attributeError :=
  ⟨rfl, rfl, rfl⟩

/-- C8: for the identity homography, the corners operation returns exactly
the canonical square `(-1,-1), (-1,1), (1,1), (1,-1)` in that order, and
the centre operation returns `(0, 0)`. -/
theorem claim_C8_identity_homography :
    get_pixel_corners idHomog = [(-1, -1), (-1, 1), (1, 1), (1, -1)] ∧
    get_pixel_centre idHomog = (0, 0) := by
  constructor <;>
    norm_num [get_pixel_corners, canonical_corners, get_pixel_centre,
      homography_transform, row_mul, idHomog, Fin.ext_iff]

/-- C9: homography projection is invariant under nonzero scaling of the
homography matrix, whenever the homogeneous scale of the point is
nonzero. -/
theorem claim_C9_scale_invariance (corner : ℚ × ℚ) (homog : Homog) (c : ℚ)
    (hc : c ≠ 0) (hz : row_mul homog corner 2 ≠ 0) :
    homography_transform corner (fun i j => c * homog i j) =
      homography_transform corner homog := by
  unfold homography_transform row_mul at *
  refine Prod.ext ?_ ?_ <;> simp only
  · rw [show c * homog 0 0 * corner.1 + c * homog 0 1 * corner.2 + c * homog 0 2 =
        c * (homog 0 0 * corner.1 + homog 0 1 * corner.2 + homog 0 2) by ring,
      show c * homog 2 0 * corner.1 + c * homog 2 1 * corner.2 + c * homog 2 2 =
        c * (homog 2 0 * corner.1 + homog 2 1 * corner.2 + homog 2 2) by ring,
      mul_div_mul_left _ _ hc]
  · rw [show c * homog 1 0 * corner.1 + c * homog 1 1 * corner.2 + c * homog 1 2 =
        c * (homog 1 0 * corner.1 + homog 1 1 * corner.2 + homog 1 2) by ring,
      show c * homog 2 0 * corner.1 + c * homog 2 1 * corner.2 + c * homog 2 2 =
        c * (homog 2 0 * corner.1 + homog 2 1 * corner.2 + homog 2 2) by ring,
      mul_div_mul_left _ _ hc]

/-- Witness for C9: scale invariance instantiated at the identity
homography, the origin, and scale 2. -/
theorem claim_C9_witness :
    ((2 : ℚ) ≠ 0 ∧ row_mul idHomog (0, 0) 2 ≠ 0) ∧
    homography_transform (0, 0) (fun i j => 2 * idHomog i j) =
      homography_transform (0, 0) idHomog :=
  have hc : (2 : ℚ) ≠ 0 := by norm_num
  have hz : row_mul idHomog (0, 0) 2 ≠ 0 := by
    norm_num [row_mul, idHomog]
  ⟨⟨hc, hz⟩, claim_C9_scale_invariance (0, 0) idHomog 2 hc hz⟩

/-- C10: `fit` on an empty list of training examples fails with
`ZeroDivisionError` for every minimiser, because the minimiser's first
evaluation of the objective divides the accumulated total error by the
number of examples, which is zero; there is no empty-input guard. -/
theorem claim_C10_empty_fit_zero_division :
    (∀ minimizer, fit minimizer [] =
      Except.error FitError.zeroDivisionError) ∧
    (∀ focal_length : ℝ, reconstruction_error focal_length [] =
      Except.error FitError.zeroDivisionError) := by
  constructor
  · intro minimizer
    rfl
  · intro focal_length
    rfl

end SbVision
